import Mathlib

/-!
Verification development for the crisis-guide speech agent.

Shallow embedding of the escalation/session engine of
`src/agents/agentic_voice_agent.py` and the emergency call service of
`src/services/emergency_call_service.py`.  Text is modelled as `List Char`;
Python's case-insensitive substring test `kw in text.lower()` is modelled by
`containsSub kw (lowerText text)`.
-/

namespace Crisis

/-- Python `text.lower()`. -/
def lowerText (s : List Char) : List Char := s.map Char.toLower

/-- Boolean list-prefix test (like Python startswith on char lists). -/
def prefixOfL : List Char → List Char → Bool
  | [], _ => true
  | _ :: _, [] => false
  | a :: as, b :: bs => a == b && prefixOfL as bs

/-- Python's substring operator `needle in haystack` on char lists. -/
def containsSub (needle : List Char) : List Char → Bool
  | [] => prefixOfL needle []
  | b :: bs => prefixOfL needle (b :: bs) || containsSub needle bs

theorem prefixOfL_iff (n h : List Char) : prefixOfL n h = true ↔ n <+: h := by
  induction n generalizing h with
  | nil => simp [prefixOfL]
  | cons a as ih =>
    cases h with
    | nil => simp [prefixOfL]
    | cons b bs =>
      simp [prefixOfL, ih, List.cons_prefix_cons, Bool.and_eq_true, beq_iff_eq]

theorem containsSub_iff (n h : List Char) : containsSub n h = true ↔ n <:+: h := by
  induction h with
  | nil =>
    simp only [containsSub, prefixOfL_iff]
    constructor
    · intro hp
      exact hp.isInfix
    · intro hi
      exact (List.prefix_nil).mpr ((List.infix_nil).mp hi)
  | cons b bs ih =>
    simp only [containsSub, Bool.or_eq_true, prefixOfL_iff, ih]
    constructor
    · intro hc
      rcases hc with hp | hi
      · exact hp.isInfix
      · exact List.infix_cons hi
    · intro hi
      rcases (List.infix_cons_iff).mp hi with hp | hi2
      · exact Or.inl hp
      · exact Or.inr hi2

/-! ### Emergency keyword detection (`_detect_emergency`) -/

/-- Fire-related keywords, from `_detect_emergency`. -/
def fire_keywords : List (List Char) :=
  ["fire", "burning", "smoke", "flame", "blaze"].map String.data

/-- Medical emergency keywords, from `_detect_emergency`. -/
def medical_keywords : List (List Char) :=
  ["heart", "chest pain", "cardiac", "breathing", "choking", "asthma",
   "injury", "hurt", "bleeding", "broken", "fracture", "unconscious",
   "not breathing", "medical emergency"].map String.data

/-- Danger/threat keywords, from `_detect_emergency`. -/
def danger_keywords : List (List Char) :=
  ["danger", "threat", "someone behind", "following", "attack", "intruder",
   "unsafe", "scared", "fear", "help", "emergency", "crisis"].map String.data

/-- General emergency keywords, from `_detect_emergency`. -/
def general_keywords : List (List Char) :=
  ["accident", "crash", "collision", "car", "vehicle", "emergency", "help"].map String.data

/-- Python `any(keyword in text_lower for keyword in kws)`. -/
def anyKeyword (kws : List (List Char)) (lowered : List Char) : Bool :=
  kws.any (fun k => containsSub k lowered)

/-- Source `AgenticVoiceAgent._detect_emergency`: the if-chain over the four keyword
categories, returning `(detected, emergency_type)`. -/
def detect_emergency (text : List Char) : Bool × List Char :=
  let text_lower := lowerText text
  if anyKeyword fire_keywords text_lower then (true, "fire".data)
  else if anyKeyword medical_keywords text_lower then (true, "medical".data)
  else if anyKeyword danger_keywords text_lower then (true, "danger".data)
  else if anyKeyword general_keywords text_lower then (true, "general".data)
  else (false, [])

/-- The ordered category table the spec describes: fire, then medical, then
danger/threat, then general. -/
def orderedCategories : List (List Char × List (List Char)) :=
  [("fire".data, fire_keywords), ("medical".data, medical_keywords),
   ("danger".data, danger_keywords), ("general".data, general_keywords)]

/-- Spec-side first-match-wins detector: return the first category in
`orderedCategories` whose keyword set matches the lowercased text; no match
means not an emergency. -/
def firstMatchDetect (text : List Char) : Bool × List Char :=
  match orderedCategories.find? (fun c => anyKeyword c.2 (lowerText text)) with
  | some c => (true, c.1)
  | none => (false, [])

/-! ### Positive confirmation (`_is_positive_confirmation`) -/

/-- The fixed affirmation vocabulary of `_is_positive_confirmation`. -/
def positive_words : List (List Char) :=
  ["yes", "yeah", "yep", "sure", "okay", "ok", "correct", "right", "true",
   "confirmed"].map String.data

/-- Source `AgenticVoiceAgent._is_positive_confirmation`:
`any(word in text_lower for word in positive_words)`. -/
def is_positive_confirmation (text : List Char) : Bool :=
  positive_words.any (fun w => containsSub w (lowerText text))

/-! ### Escalation state (`AgenticConversationState`) -/

/-- Source `AgenticConversationState`: per-agent step/escalation bookkeeping. -/
structure ConvState where
  current_step : Nat
  steps_completed : List Nat
  pending_confirmation : Bool
  confirmation_timeout : Nat
  escalation_level : Nat
  user_responsive : Bool
  emergency_type : Option (List Char)
  safety_confirmed : Bool
  location_confirmed : Bool
  help_requested : Bool
  deriving DecidableEq, Repr

/-- Source `AgenticConversationState.__init__`. -/
def ConvState.init : ConvState :=
  { current_step := 0, steps_completed := [], pending_confirmation := false,
    confirmation_timeout := 0, escalation_level := 0, user_responsive := true,
    emergency_type := none, safety_confirmed := false,
    location_confirmed := false, help_requested := false }

/-- Source `AgenticConversationState.start_emergency_protocol`. -/
def ConvState.start_emergency_protocol (s : ConvState) (ty : List Char) : ConvState :=
  { s with
      emergency_type := some ty, current_step := 1, steps_completed := [],
      escalation_level := 0, safety_confirmed := false,
      location_confirmed := false, help_requested := false }

/-- Source `AgenticConversationState.confirm_step`. -/
def ConvState.confirm_step (s : ConvState) : ConvState :=
  { s with
      steps_completed := s.steps_completed ++ [s.current_step],
      current_step := s.current_step + 1, pending_confirmation := false,
      confirmation_timeout := 0 }

/-- Source `AgenticConversationState.escalate`. -/
def ConvState.escalate (s : ConvState) : ConvState :=
  { s with
      escalation_level := s.escalation_level + 1,
      pending_confirmation := false }

/-! ### Voice state (`AgenticVoiceState`), restricted to the fields the
escalation/monitoring claims read. -/

/-- Source `AgenticVoiceState` (the fields used by the handlers under study). -/
structure VoiceState where
  emergency_detected : Bool
  conversation_stage : List Char
  silence_count : Nat
  last_user_response : List Char
  deriving DecidableEq, Repr

/-- Source `AgenticVoiceState.__init__` (restricted fields). -/
def VoiceState.init : VoiceState :=
  { emergency_detected := false, conversation_stage := "standby".data,
    silence_count := 0, last_user_response := [] }

/-! ### Proactive monitoring loop body (`_proactive_monitoring`) -/

/-- What one iteration of the proactive monitoring loop does after its sleep. -/
inductive ProAction where
  | checkIn
  | emergencyEscalation
  | idle
  deriving DecidableEq, Repr

/-- One iteration of `_proactive_monitoring` after the interval sleep:
the first guard emits a proactive check-in, the second triggers the
emergency escalation pathway, otherwise the iteration does nothing. -/
def proactive_iteration (v : VoiceState) : ProAction :=
  if v.silence_count > 0 && !v.emergency_detected &&
      v.conversation_stage ≠ "standby".data then
    ProAction.checkIn
  else if v.emergency_detected && v.silence_count > 0 then
    ProAction.emergencyEscalation
  else
    ProAction.idle

/-! ### Single-session escalation dynamics

`AgentState` packs the shared conversation/voice state together with whether
an escalation-timer task is currently armed (sleeping) for the session, and a
counter of `_initiate_real_emergency_call` invocations.  Arming in the source
is `cancel stored task; escalation_tasks[cid] = create_task(...)`, which for a
single session leaves exactly the new timer armed. -/
structure AgentState where
  conv : ConvState
  voice : VoiceState
  timerArmed : Bool
  initiateCount : Nat
  deriving DecidableEq, Repr

/-- Initial agent state for one session. -/
def AgentState.init : AgentState :=
  { conv := ConvState.init, voice := VoiceState.init,
    timerArmed := false, initiateCount := 0 }

/-- The check `_handle_agentic_emergency_response` performs on the LLM reply:
`"call emergency" in response.lower() or "call 911" in response.lower() or
"emergency services" in response.lower()`. -/
def llmMentionsCall (r : List Char) : Bool :=
  containsSub ("call emergency".data) (lowerText r) ||
  containsSub ("call 911".data) (lowerText r) ||
  containsSub ("emergency services".data) (lowerText r)

/-- State effect of `_handle_agentic_emergency_response` given the LLM reply
`llm`: both branches arm a fresh escalation timer (cancelling any prior one)
when `pending_confirmation` is not already set. -/
def handleEmergencyResponse (s : AgentState) (llm : List Char) : AgentState :=
  if llmMentionsCall llm then
    if !s.conv.pending_confirmation then
      { s with
        conv := { s.conv with pending_confirmation := true, confirmation_timeout := 5 },
        timerArmed := true }
    else s
  else if containsSub ("?".data) llm && !s.conv.pending_confirmation then
    { s with
      conv := { s.conv with pending_confirmation := true, confirmation_timeout := 5 },
      timerArmed := true }
  else s

/-- State effect of `handle_text_message` on text `text` when the LLM reply
(where one is requested) is `llm`.  Mirrors the source: emergency detection
first; otherwise stage/silence bookkeeping, then the emergency-protocol guard
`current_step > 0 or emergency_type`; inside it, a positive confirmation while
`pending_confirmation` clears the flag, cancels the stored escalation timer
and invokes `_initiate_real_emergency_call`; a non-confirmation re-enters
`_handle_agentic_emergency_response`; outside the guard the turn is a regular
conversation reply with no escalation-state effect. -/
def handle_text_message (s : AgentState) (text llm : List Char) : AgentState :=
  if text = [] then s
  else if (detect_emergency text).1 then
    let s1 := { s with
        voice := { s.voice with
            emergency_detected := true,
            conversation_stage := "emergency".data,
            last_user_response := text } }
    handleEmergencyResponse s1 llm
  else
    let s1 := if s.voice.conversation_stage = "standby".data then
      { s with voice := { s.voice with conversation_stage := "active".data } }
    else s
    let s2 := { s1 with
        voice := { s1.voice with
            silence_count := 0,
            last_user_response := text } }
    if s2.conv.current_step > 0 ∨ s2.conv.emergency_type ≠ none then
      if s2.conv.pending_confirmation && is_positive_confirmation text then
        { s2 with
            conv := { s2.conv with pending_confirmation := false },
            timerArmed := false, initiateCount := s2.initiateCount + 1 }
      else
        handleEmergencyResponse s2 llm
    else s2

/-- State effect of one `_escalation_timer` task reaching the end of its
sleep: the task is consumed; if `pending_confirmation` still holds it calls
`escalate()`, then re-arms a fresh timer while `escalation_level < 3` and
invokes `_initiate_real_emergency_call` once `escalation_level >= 3`. -/
def escalation_timer_fire (s : AgentState) : AgentState :=
  if !s.timerArmed then s
  else
    let s1 := { s with timerArmed := false }
    if s1.conv.pending_confirmation then
      let s2 := { s1 with conv := s1.conv.escalate }
      if s2.conv.escalation_level < 3 then
        { s2 with
            conv := { s2.conv with pending_confirmation := true, confirmation_timeout := 5 },
            timerArmed := true }
      else
        { s2 with initiateCount := s2.initiateCount + 1 }
    else s1

/-- Session events: an inbound text frame (with the LLM reply the turn would
fetch) or an armed escalation timer finishing its sleep. -/
inductive Ev where
  | msg (text llm : List Char)
  | fire
  deriving DecidableEq, Repr

/-- One step of the single-session system. -/
def stepEv (s : AgentState) : Ev → AgentState
  | Ev.msg t l => handle_text_message s t l
  | Ev.fire => escalation_timer_fire s

/-- Run a list of events from a state. -/
def runEv (s : AgentState) (evs : List Ev) : AgentState :=
  evs.foldl stepEv s

/-! ### The escalation-timer task registry (`self.escalation_tasks`)

A faithful model of the task-level picture: `live` is the set of armed
(sleeping) `_escalation_timer` tasks, tagged `(client_id, task_id)`;
`stored` is the `escalation_tasks` dict (an assoc list where `lookup` takes
the most recent binding, modelling dict overwrite); `nextId` supplies fresh
task ids for `asyncio.create_task`. -/
structure TimerSys where
  live : List (Nat × Nat)
  stored : List (Nat × Nat)
  nextId : Nat
  deriving DecidableEq, Repr

/-- Empty registry at agent start-up. -/
def TimerSys.start : TimerSys := { live := [], stored := [], nextId := 0 }

/-- Source `if client_id in self.escalation_tasks: self.escalation_tasks[client_id].cancel()`:
cancelling the stored task removes it from the armed set (a no-op when that
task already fired or was already cancelled). -/
def cancelStoredTimer (s : TimerSys) (c : Nat) : TimerSys :=
  match s.stored.lookup c with
  | some t => { s with live := s.live.erase (c, t) }
  | none => s

/-- Source `self.escalation_tasks[client_id] = asyncio.create_task(self._escalation_timer(...))`
preceded by the guard above: cancel the stored task, then create and store a
fresh one.  This is the only way a timer is ever armed in the source. -/
def armTimerTask (s : TimerSys) (c : Nat) : TimerSys :=
  let s1 := cancelStoredTimer s c
  { live := (c, s1.nextId) :: s1.live,
    stored := (c, s1.nextId) :: s1.stored,
    nextId := s1.nextId + 1 }

/-- An armed `_escalation_timer` task for `c` wakes from its sleep: it is no
longer armed.  (By the registry invariant the waking task is the stored one.) -/
def timerWake (s : TimerSys) (c : Nat) : TimerSys :=
  match s.stored.lookup c with
  | some t => { s with live := s.live.erase (c, t) }
  | none => s

/-- Registry events, one per site in the source that touches
`escalation_tasks`: arming from `_handle_agentic_emergency_response`, a fire
that re-arms (`escalation_level < 3`), a fire that ends the chain, and the
cancels in `handle_text_message` / `handle_websocket` teardown. -/
inductive TEv where
  | arm (c : Nat)
  | fireRearm (c : Nat)
  | fireEnd (c : Nat)
  | cancel (c : Nat)
  deriving DecidableEq, Repr

/-- One registry step. -/
def stepT (s : TimerSys) : TEv → TimerSys
  | TEv.arm c => armTimerTask s c
  | TEv.fireRearm c => armTimerTask (timerWake s c) c
  | TEv.fireEnd c => timerWake s c
  | TEv.cancel c => cancelStoredTimer s c

/-- Run a list of registry events. -/
def runT (s : TimerSys) (evs : List TEv) : TimerSys :=
  evs.foldl stepT s

/-- Number of live (armed) timer tasks of client `c`. -/
def liveCount (s : TimerSys) (c : Nat) : Nat :=
  (s.live.filter (fun p => p.1 = c)).length

/-! ### Two concurrent sessions over the agent's shared state

`AgenticVoiceAgent.__init__` creates ONE `conversation_state` and ONE
`voice_state` on the agent object; `handle_websocket` registers any number of
clients against that same object, keying only connections and tasks by
`client_id`.  `MultiState` reflects this: a single shared `ConvState` /
`VoiceState`, and a per-client record of armed escalation timers. -/
structure MultiState where
  conv : ConvState
  voice : VoiceState
  armedClients : List Nat
  initiateCount : Nat
  deriving DecidableEq, Repr

/-- Agent start-up with no client armed. -/
def MultiState.init : MultiState :=
  { conv := ConvState.init, voice := VoiceState.init,
    armedClients := [], initiateCount := 0 }

/-- Arm (cancel-then-create) the escalation timer of client `c`. -/
def armClient (l : List Nat) (c : Nat) : List Nat := c :: l.erase c

/-- Cancel the escalation timer of client `c`. -/
def cancelClient (l : List Nat) (c : Nat) : List Nat := l.erase c

/-- What handler code running on behalf of client `c` reads as the escalation
level: the agent's single shared `self.conversation_state.escalation_level`. -/
def readEscalationLevel (s : MultiState) (_c : Nat) : Nat :=
  s.conv.escalation_level

/-- What handler code running on behalf of client `c` reads as the current
protocol step: the shared `self.conversation_state.current_step`. -/
def readCurrentStep (s : MultiState) (_c : Nat) : Nat :=
  s.conv.current_step

/-- Source `_handle_agentic_emergency_response` on behalf of client `c`. -/
def handleEmergencyResponseM (s : MultiState) (c : Nat) (llm : List Char) : MultiState :=
  if llmMentionsCall llm then
    if !s.conv.pending_confirmation then
      { s with
          conv := { s.conv with pending_confirmation := true, confirmation_timeout := 5 },
          armedClients := armClient s.armedClients c }
    else s
  else if containsSub ("?".data) llm && !s.conv.pending_confirmation then
    { s with
        conv := { s.conv with pending_confirmation := true, confirmation_timeout := 5 },
        armedClients := armClient s.armedClients c }
  else s

/-- Source `handle_text_message` on behalf of client `c` (same shared-state logic as
the single-session model, with per-client timer bookkeeping). -/
def handle_text_messageM (s : MultiState) (c : Nat) (text llm : List Char) : MultiState :=
  if text = [] then s
  else if (detect_emergency text).1 then
    let s1 := { s with
        voice := { s.voice with
            emergency_detected := true,
            conversation_stage := "emergency".data,
            last_user_response := text } }
    handleEmergencyResponseM s1 c llm
  else
    let s1 := if s.voice.conversation_stage = "standby".data then
      { s with voice := { s.voice with conversation_stage := "active".data } }
    else s
    let s2 := { s1 with
        voice := { s1.voice with
            silence_count := 0,
            last_user_response := text } }
    if s2.conv.current_step > 0 ∨ s2.conv.emergency_type ≠ none then
      if s2.conv.pending_confirmation && is_positive_confirmation text then
        { s2 with
            conv := { s2.conv with pending_confirmation := false },
            armedClients := cancelClient s2.armedClients c,
            initiateCount := s2.initiateCount + 1 }
      else
        handleEmergencyResponseM s2 c llm
    else s2

/-- Client `c`'s `_escalation_timer` wakes from its sleep. -/
def escalation_timer_fireM (s : MultiState) (c : Nat) : MultiState :=
  if !(s.armedClients.contains c) then s
  else
    let s1 := { s with armedClients := cancelClient s.armedClients c }
    if s1.conv.pending_confirmation then
      let s2 := { s1 with conv := s1.conv.escalate }
      if s2.conv.escalation_level < 3 then
        { s2 with
            conv := { s2.conv with pending_confirmation := true, confirmation_timeout := 5 },
            armedClients := armClient s2.armedClients c }
      else
        { s2 with initiateCount := s2.initiateCount + 1 }
    else s1

/-- Multi-session events, tagged by the client on whose behalf they run. -/
inductive MEv where
  | mmsg (c : Nat) (text llm : List Char)
  | mfire (c : Nat)
  deriving DecidableEq, Repr

/-- The client a multi-session event runs on behalf of. -/
def MEv.client : MEv → Nat
  | MEv.mmsg c _ _ => c
  | MEv.mfire c => c

/-- One multi-session step. -/
def stepM (s : MultiState) : MEv → MultiState
  | MEv.mmsg c t l => handle_text_messageM s c t l
  | MEv.mfire c => escalation_timer_fireM s c

/-- Run a list of multi-session events. -/
def runM (s : MultiState) (evs : List MEv) : MultiState :=
  evs.foldl stepM s

/-! ### Call monitoring (`_monitor_emergency_call`)

The polled provider is modelled as `polls : Nat → Option (List Char)`: the
result of `get_call_status` at the i-th check (`none` when the service
returns no details).  The loop runs `for i in range(24)` with a fixed 5-second
sleep each iteration.  `answered`, `failed` and `completed` each send one
final status update and `break`; `busy`, `no-answer`, `ringing`, unknown
statuses and missing details are only logged; falling off the end of the loop
sends nothing. -/

/-- Final status updates `_monitor_emergency_call` can send. -/
inductive CallFrame where
  | answeredMsg
  | failedMsg
  | completedMsg
  deriving DecidableEq, Repr

/-- The loop of `_monitor_emergency_call`, from check index `i` with `fuel`
iterations remaining; returns the final status updates sent to the session. -/
def monitorFrom (polls : Nat → Option (List Char)) : Nat → Nat → List CallFrame
  | _, 0 => []
  | i, fuel + 1 =>
    match polls i with
    | some st =>
      if st = "answered".data then [CallFrame.answeredMsg]
      else if st = "failed".data then [CallFrame.failedMsg]
      else if st = "completed".data then [CallFrame.completedMsg]
      else monitorFrom polls (i + 1) fuel
    | none => monitorFrom polls (i + 1) fuel

/-- Source `_monitor_emergency_call`: 24 checks at a fixed interval. -/
def monitor_emergency_call (polls : Nat → Option (List Char)) : List CallFrame :=
  monitorFrom polls 0 24

/-- The statuses on which the source's loop actually emits and stops. -/
def isBreakStatus : Option (List Char) → Bool
  | some st => st = "answered".data || st = "failed".data || st = "completed".data
  | none => false

/-- The terminal-status set named by the claim (spec §4.5). -/
def isClaimTerminal : Option (List Char) → Bool
  | some st => st = "answered".data || st = "failed".data || st = "completed".data ||
      st = "busy".data || st = "no-answer".data
  | none => false

/-- The single frame the loop sends for a break status. -/
def frameOfStatus : Option (List Char) → CallFrame
  | some st =>
    if st = "answered".data then CallFrame.answeredMsg
    else if st = "failed".data then CallFrame.failedMsg
    else CallFrame.completedMsg
  | none => CallFrame.completedMsg

/-- Spec-side description of the amended monitoring behaviour: find the first
of the 24 checks whose status is one the loop breaks on; emit exactly its one
final update, or nothing when no such check exists. -/
def monitorSpec (polls : Nat → Option (List Char)) : List CallFrame :=
  match (List.range 24).find? (fun i => isBreakStatus (polls i)) with
  | some i => [frameOfStatus (polls i)]
  | none => []

/-! ### Emergency call service (`EmergencyCallService`) -/

/-- Source `EmergencyCallData.__init__`: pending record with no provider call id. -/
structure EmergencyCallData where
  emergency_type : List Char
  location : List Char
  situation : List Char
  user_phone : Option (List Char)
  call_id : Option (List Char)
  status : List Char
  deriving DecidableEq, Repr

/-- Source `EmergencyCallData(emergency_type, location, situation, user_phone)`. -/
def EmergencyCallData.make (ty loc sit : List Char) (phone : Option (List Char)) :
    EmergencyCallData :=
  { emergency_type := ty, location := loc, situation := sit,
    user_phone := phone, call_id := none, status := "pending".data }

/-- Source `EmergencyCallService` state: truthiness of `self.twilio_client`, the
`active_calls` dict (assoc list keyed by call sid) and the `emergency_logs`
list (log entries modelled by the logged record). -/
structure CallService where
  twilio_client : Bool
  active_calls : List (List Char × EmergencyCallData)
  emergency_logs : List EmergencyCallData
  deriving DecidableEq, Repr

/-- Source `EmergencyCallService.initiate_emergency_call`.  `enabled` is
`Config.get_emergency_call_enabled()`; `twilioCreate` is the outcome of
`self.twilio_client.calls.create(...)` (`Except.error` = raised).  Returns the
call sid (or `None`), the service state after the call, and the caller's
`emergency_data` object after the call (it is mutated on success). -/
def initiate_emergency_call (enabled : Bool) (svc : CallService)
    (d : EmergencyCallData) (twilioCreate : Except Unit (List Char)) :
    Option (List Char) × CallService × EmergencyCallData :=
  if !enabled then (none, svc, d)
  else if !svc.twilio_client then (none, svc, d)
  else
    match twilioCreate with
    | Except.error _ => (none, svc, d)
    | Except.ok sid =>
      let d1 := { d with call_id := some sid, status := "initiated".data }
      (some sid,
       { svc with
           active_calls := (sid, d1) :: svc.active_calls,
           emergency_logs := svc.emergency_logs ++ [d1] },
       d1)

/-! ### Emergency call initiation with fallback (`_initiate_real_emergency_call`) -/

/-- Frames the initiation path sends to the session (audio frames and the
spawned monitoring task are outside this slice). -/
inductive AgentFrame where
  | responseText (text : List Char)
  | errorFrame (msg : List Char)
  deriving DecidableEq, Repr

/-- Whether a frame is a bare error frame. -/
def isErrorFrame : AgentFrame → Bool
  | AgentFrame.errorFrame _ => true
  | _ => false

/-- Python `str.upper()`. -/
def upperText (s : List Char) : List Char := s.map Char.toUpper

/-- First message of `_simulate_emergency_call`. -/
def simulateMsg1 : List Char :=
  ("🚨 EMERGENCY CALL SIMULATION 🚨\n\n📞 Simulating emergency call...\n📍 Location: Unknown\n🚨 Emergency Type: General\n\n⏱️ Connecting to emergency services...\n💬 Stay on the line for guidance.\n").data

/-- Second message of `_simulate_emergency_call`, sent after the simulated
call delay. -/
def simulateMsg2 : List Char :=
  ("✅ Emergency services have been contacted.\n🚑 Emergency responders are on their way.\n📱 Please stay on the line and follow their instructions when they arrive.").data

/-- Source `_simulate_emergency_call`: the fallback sends exactly these two response
texts to the session. -/
def simulate_emergency_call_frames : List AgentFrame :=
  [AgentFrame.responseText simulateMsg1, AgentFrame.responseText simulateMsg2]

/-- The success message of `_initiate_real_emergency_call`. -/
def initiatedMsg (ty loc cid : List Char) : List Char :=
  ("🚨 EMERGENCY CALL INITIATED 🚨\n\n📞 Calling emergency services...\n📍 Location: ").data
    ++ loc ++ ("\n🚨 Emergency Type: ").data ++ upperText ty
    ++ ("\n📱 Call ID: ").data ++ cid
    ++ ("\n\n⏱️ Connecting to emergency services...\n💬 Stay on the line for guidance.\n").data

/-- Source `_initiate_real_emergency_call`: frames sent to the session as a function
of the telephony outcome `callResult` (`ok (some sid)` = call id returned,
`ok none` = `initiate_emergency_call` returned `None`, `error` = it raised).
Both failure shapes fall back to `_simulate_emergency_call`. -/
def initiate_real_emergency_call_frames (ty loc : List Char)
    (callResult : Except Unit (Option (List Char))) : List AgentFrame :=
  match callResult with
  | Except.ok (some cid) => [AgentFrame.responseText (initiatedMsg ty loc cid)]
  | Except.ok none => simulate_emergency_call_frames
  | Except.error _ => simulate_emergency_call_frames

/-! ## Claims -/

/-- C6: for every input string, `_detect_emergency` checks the keyword
categories in the fixed order fire, medical, danger/threat, general, and
returns the first category whose keyword set has a case-insensitive match in
the text (first-match-wins); if no category matches, the text is classified as
not an emergency.  Stated as: the source if-chain coincides with the
first-match detector over the ordered category table. -/
theorem c6_theorem (text : List Char) :
    detect_emergency text = firstMatchDetect text := by
  unfold detect_emergency firstMatchDetect orderedCategories
  by_cases h1 : anyKeyword fire_keywords (lowerText text) = true <;>
    by_cases h2 : anyKeyword medical_keywords (lowerText text) = true <;>
      by_cases h3 : anyKeyword danger_keywords (lowerText text) = true <;>
        by_cases h4 : anyKeyword general_keywords (lowerText text) = true <;>
          simp [h1, h2, h3, h4, List.find?]

/-- C9: `_is_positive_confirmation(text)` returns true iff the lowercased
text contains at least one word of the fixed affirmation vocabulary as a
substring, and false otherwise. -/
theorem c9_theorem (text : List Char) :
    is_positive_confirmation text = true ↔
      ∃ w ∈ positive_words, w <:+: lowerText text := by
  unfold is_positive_confirmation
  rw [List.any_eq_true]
  simp only [containsSub_iff]

/-- C8: an iteration of the proactive monitoring loop emits a check-in
message exactly when `silence_count > 0`, no emergency is detected, and the
conversation stage is not standby; hence the monitor never emits a check-in
while the session's stage is standby. -/
theorem c8_theorem (v : VoiceState) :
    proactive_iteration v = ProAction.checkIn ↔
      0 < v.silence_count ∧ v.emergency_detected = false ∧
        v.conversation_stage ≠ "standby".data := by
  unfold proactive_iteration
  split_ifs with h1 h2 <;>
    simp_all [Bool.and_eq_true, decide_eq_true_eq, Bool.not_eq_true']

/-- C10: when emergency calling is disabled or the Twilio client is not
initialized, `initiate_emergency_call` returns `None` and changes nothing:
`active_calls` and `emergency_logs` keep their contents, and the passed
`emergency_data` keeps its `call_id` and its status. -/
theorem c10_theorem (enabled : Bool) (svc : CallService) (d : EmergencyCallData)
    (tc : Except Unit (List Char))
    (h : enabled = false ∨ svc.twilio_client = false) :
    (initiate_emergency_call enabled svc d tc).1 = none ∧
    (initiate_emergency_call enabled svc d tc).2.1.active_calls = svc.active_calls ∧
    (initiate_emergency_call enabled svc d tc).2.1.emergency_logs = svc.emergency_logs ∧
    (initiate_emergency_call enabled svc d tc).2.2.call_id = d.call_id ∧
    (initiate_emergency_call enabled svc d tc).2.2.status = d.status := by
  rcases h with h | h
  · simp [initiate_emergency_call, h]
  · cases enabled <;> simp [initiate_emergency_call, h]

/-- C10 witness: a concrete disabled-configuration call through
`c10_theorem`. -/
theorem c10_witness :
    ((false : Bool) = false ∨
        (CallService.mk true [] []).twilio_client = false) ∧
    ((initiate_emergency_call false (CallService.mk true [] [])
        (EmergencyCallData.make ("fire".data) ("Unknown location".data)
          ("Emergency detected: fire".data) none) (Except.ok ("CA123".data))).1 = none ∧
      (initiate_emergency_call false (CallService.mk true [] [])
        (EmergencyCallData.make ("fire".data) ("Unknown location".data)
          ("Emergency detected: fire".data) none) (Except.ok ("CA123".data))).2.1.active_calls = [] ∧
      (initiate_emergency_call false (CallService.mk true [] [])
        (EmergencyCallData.make ("fire".data) ("Unknown location".data)
          ("Emergency detected: fire".data) none) (Except.ok ("CA123".data))).2.1.emergency_logs = [] ∧
      (initiate_emergency_call false (CallService.mk true [] [])
        (EmergencyCallData.make ("fire".data) ("Unknown location".data)
          ("Emergency detected: fire".data) none) (Except.ok ("CA123".data))).2.2.call_id =
        (EmergencyCallData.make ("fire".data) ("Unknown location".data)
          ("Emergency detected: fire".data) none).call_id ∧
      (initiate_emergency_call false (CallService.mk true [] [])
        (EmergencyCallData.make ("fire".data) ("Unknown location".data)
          ("Emergency detected: fire".data) none) (Except.ok ("CA123".data))).2.2.status =
        (EmergencyCallData.make ("fire".data) ("Unknown location".data)
          ("Emergency detected: fire".data) none).status) :=
  ⟨Or.inl rfl,
    c10_theorem false (CallService.mk true [] [])
      (EmergencyCallData.make ("fire".data) ("Unknown location".data)
        ("Emergency detected: fire".data) none) (Except.ok ("CA123".data))
      (Or.inl rfl)⟩

/-- C7: whenever emergency-call initiation returns `None` or raises, the
session still receives the simulated-call fallback message sequence — two
non-error response texts — and never a bare error frame. -/
theorem c7_theorem (ty loc : List Char) (res : Except Unit (Option (List Char)))
    (h : res = Except.ok none ∨ res = Except.error ()) :
    initiate_real_emergency_call_frames ty loc res = simulate_emergency_call_frames ∧
    initiate_real_emergency_call_frames ty loc res ≠ [] ∧
    ∀ f ∈ initiate_real_emergency_call_frames ty loc res, isErrorFrame f = false := by
  rcases h with h | h <;> subst h <;>
    simp [initiate_real_emergency_call_frames, simulate_emergency_call_frames,
      isErrorFrame]

/-- C7 witness: the telephony service returning `None` for a concrete general
emergency still yields the two-message simulated fallback. -/
theorem c7_witness :
    ((Except.ok none : Except Unit (Option (List Char))) = Except.ok none ∨
        (Except.ok none : Except Unit (Option (List Char))) = Except.error ()) ∧
    (initiate_real_emergency_call_frames ("general".data) ("Unknown location".data)
        (Except.ok none) = simulate_emergency_call_frames ∧
      initiate_real_emergency_call_frames ("general".data) ("Unknown location".data)
        (Except.ok none) ≠ [] ∧
      ∀ f ∈ initiate_real_emergency_call_frames ("general".data)
          ("Unknown location".data) (Except.ok none), isErrorFrame f = false) :=
  ⟨Or.inl rfl,
    c7_theorem ("general".data) ("Unknown location".data) (Except.ok none)
      (Or.inl rfl)⟩

/-- The monitor loop from index `i` with `fuel` checks left equals the
find?-based description over those check indices. -/
theorem monitorFrom_succ (polls : Nat → Option (List Char)) (i n : Nat) :
    monitorFrom polls i (n + 1) =
      match polls i with
      | some st =>
        if st = "answered".data then [CallFrame.answeredMsg]
        else if st = "failed".data then [CallFrame.failedMsg]
        else if st = "completed".data then [CallFrame.completedMsg]
        else monitorFrom polls (i + 1) n
      | none => monitorFrom polls (i + 1) n := rfl

theorem monitorFrom_succ_some (polls : Nat → Option (List Char)) (i n : Nat)
    (st : List Char) (hp : polls i = some st) :
    monitorFrom polls i (n + 1) =
      (if st = "answered".data then [CallFrame.answeredMsg]
       else if st = "failed".data then [CallFrame.failedMsg]
       else if st = "completed".data then [CallFrame.completedMsg]
       else monitorFrom polls (i + 1) n) := by
  rw [monitorFrom_succ, hp]

theorem monitorFrom_succ_none (polls : Nat → Option (List Char)) (i n : Nat)
    (hp : polls i = none) :
    monitorFrom polls i (n + 1) = monitorFrom polls (i + 1) n := by
  rw [monitorFrom_succ, hp]

theorem monitorFrom_eq_find (polls : Nat → Option (List Char)) (fuel i : Nat) :
    monitorFrom polls i fuel =
      match (List.range' i fuel).find? (fun j => isBreakStatus (polls j)) with
      | some j => [frameOfStatus (polls j)]
      | none => [] := by
  induction fuel generalizing i with
  | zero => simp [monitorFrom]
  | succ n ih =>
    rw [List.range'_succ]
    by_cases hb : isBreakStatus (polls i) = true
    · rw [List.find?_cons_of_pos (p := fun j => isBreakStatus (polls j)) _ hb]
      cases hp : polls i with
      | none => rw [hp] at hb; exact absurd hb (by decide)
      | some st =>
        rw [hp] at hb
        simp only [isBreakStatus, Bool.or_eq_true, decide_eq_true_eq] at hb
        rw [monitorFrom_succ_some polls i n st hp]
        show _ = [frameOfStatus (polls i)]
        rw [hp]
        rcases hb with (h | h) | h
        · subst h; rfl
        · subst h; rfl
        · subst h; rfl
    · rw [List.find?_cons_of_neg (p := fun j => isBreakStatus (polls j)) _ hb]
      cases hp : polls i with
      | none => rw [monitorFrom_succ_none polls i n hp]; exact ih (i + 1)
      | some st =>
        rw [hp] at hb
        simp only [isBreakStatus, Bool.or_eq_true, decide_eq_true_eq] at hb
        push_neg at hb
        obtain ⟨⟨h1, h2⟩, h3⟩ := hb
        rw [monitorFrom_succ_some polls i n st hp, if_neg h1, if_neg h2, if_neg h3]
        exact ih (i + 1)

/-- The formalization of claim C4 as stated: whenever some check among the 24
returns a status in the claim's terminal set (`answered`, `completed`,
`failed`, `busy`, `no-answer`), the monitor emits exactly one final status
update; and if the bound is exhausted without such a status, it emits a
timeout notice (so it also emits something). -/
def c4ClaimProp : Prop :=
  ∀ polls : Nat → Option (List Char),
    ((∃ i, i < 24 ∧ isClaimTerminal (polls i) = true) →
      (monitor_emergency_call polls).length = 1) ∧
    ((∀ i, i < 24 → isClaimTerminal (polls i) = false) →
      (monitor_emergency_call polls).length = 1)

/-- C4 counterexample: a call whose status is `busy` at every check.  `busy`
is in the claim's terminal set, yet the loop only logs it, keeps polling, and
after all 24 checks stops without emitting anything — no final status update
and no timeout notice. -/
theorem c4_counterexample :
    monitor_emergency_call (fun _ => some ("busy".data)) = [] ∧
    isClaimTerminal (some ("busy".data)) = true ∧ ¬ c4ClaimProp := by
  refine ⟨by decide, by decide, fun h => ?_⟩
  have h2 := (h (fun _ => some ("busy".data))).1 ⟨0, by norm_num, by decide⟩
  have h3 : (monitor_emergency_call (fun _ => some ("busy".data))).length = 0 := by
    decide
  omega

/-- C4 amended: the monitor polls at a fixed interval for up to 24 checks;
on the first status among `answered`, `failed`, `completed` it emits exactly
that one final status update and stops; `busy`, `no-answer` and all other
statuses are only logged and polling continues; if the 24-check bound is
exhausted without one of those three statuses, monitoring stops silently,
emitting nothing to the session. -/
theorem c4_amended (polls : Nat → Option (List Char)) :
    monitor_emergency_call polls = monitorSpec polls := by
  unfold monitor_emergency_call monitorSpec
  rw [List.range_eq_range']
  exact monitorFrom_eq_find polls 24 0

/-- The formalization of claim C1 as stated: within one escalation episode
(the whole run from agent start — nothing in the source ever resets the
escalation state), across every interleaving of escalation-timer fires and
user messages, `_initiate_real_emergency_call` is invoked at most once. -/
def c1ClaimProp : Prop :=
  ∀ evs : List Ev, (runEv AgentState.init evs).initiateCount ≤ 1

/-- C1 counterexample trace: an emergency message, three timer fires (the
third reaches `escalation_level = 3` and initiates the call), then a user
confirmation message that is routed through the emergency handler and re-arms
the timer, and one more fire that initiates a second call. -/
def c1Events : List Ev :=
  [Ev.msg ("fire".data) ("Are you safe?".data),
   Ev.fire, Ev.fire, Ev.fire,
   Ev.msg ("yes please help".data) ("Are you hurt?".data),
   Ev.fire]

/-- C1 counterexample: on `c1Events` the escalation level reaches the
terminal threshold 3 at the fourth event with one initiation, yet the full
trace — whose fifth event is a positive-confirmation user message — ends with
two initiations in the same episode, refuting the at-most-once claim. -/
theorem c1_counterexample :
    (runEv AgentState.init (c1Events.take 4)).conv.escalation_level = 3 ∧
    (runEv AgentState.init (c1Events.take 4)).initiateCount = 1 ∧
    is_positive_confirmation ("yes please help".data) = true ∧
    (runEv AgentState.init c1Events).initiateCount = 2 ∧
    ¬ c1ClaimProp := by
  refine ⟨by decide, by decide, by decide, by decide, fun h => ?_⟩
  have h1 := h c1Events
  have h2 : (runEv AgentState.init c1Events).initiateCount = 2 := by decide
  omega

/-- If no escalation timer is armed, a fire event is a no-op. -/
theorem fire_of_unarmed (s : AgentState) (h : s.timerArmed = false) :
    escalation_timer_fire s = s := by
  unfold escalation_timer_fire
  rw [h]
  rfl

/-- A fire either leaves the initiation count unchanged, or initiates once
and leaves no timer armed (the `escalation_level >= 3` branch does not
re-arm). -/
theorem fire_cases (s : AgentState) :
    (escalation_timer_fire s).initiateCount = s.initiateCount ∨
      ((escalation_timer_fire s).initiateCount = s.initiateCount + 1 ∧
        (escalation_timer_fire s).timerArmed = false) := by
  unfold escalation_timer_fire
  by_cases h1 : (!s.timerArmed) = true
  · rw [if_pos h1]; exact Or.inl rfl
  · rw [if_neg h1]
    by_cases h2 : s.conv.pending_confirmation = true
    · rw [if_pos h2]
      by_cases h3 : (s.conv.escalate).escalation_level < 3
      · rw [if_pos h3]; exact Or.inl rfl
      · rw [if_neg h3]; exact Or.inr ⟨rfl, rfl⟩
    · rw [if_neg h2]; exact Or.inl rfl

/-- Fires from an unarmed state change nothing. -/
theorem runFires_of_unarmed (s : AgentState) (n : Nat) (h : s.timerArmed = false) :
    runEv s (List.replicate n Ev.fire) = s := by
  induction n with
  | zero => rfl
  | succ k ih =>
    rw [List.replicate_succ]
    show runEv (stepEv s Ev.fire) (List.replicate k Ev.fire) = s
    rw [show stepEv s Ev.fire = s from fire_of_unarmed s h]
    exact ih

/-- C1 amended: within a single chain of escalation-timer fires — no further
user messages routed through the emergency handler, hence no re-arming —
`_initiate_real_emergency_call` is invoked at most once: the fire that
reaches `escalation_level >= 3` initiates without re-arming the timer, and a
fire with no armed timer does nothing.  (The original at-most-once-per-episode
claim fails because a later emergency-handled user message can re-arm the
timer; see the counterexample.) -/
theorem c1_amended (s : AgentState) (n : Nat) :
    (runEv s (List.replicate n Ev.fire)).initiateCount ≤ s.initiateCount + 1 := by
  induction n generalizing s with
  | zero => exact Nat.le_succ _
  | succ k ih =>
    rw [List.replicate_succ]
    show (runEv (stepEv s Ev.fire) (List.replicate k Ev.fire)).initiateCount ≤
      s.initiateCount + 1
    rcases fire_cases s with h | ⟨h1, h2⟩
    · have := ih (stepEv s Ev.fire)
      simp only [stepEv] at *
      omega
    · rw [show stepEv s Ev.fire = escalation_timer_fire s from rfl,
        runFires_of_unarmed _ k h2]
      omega

/-- The formalization of claim C3 as stated: handling the text `"yes"` while
`pending_confirmation` holds during an active emergency protocol (the
source's guard `current_step > 0 or emergency_type`) runs `confirm_step()`:
the prior `current_step` is appended to `steps_completed`, `current_step`
increases by one, and `confirmation_timeout` is cleared. -/
def c3ClaimProp : Prop :=
  ∀ (s : AgentState) (llm : List Char),
    (0 < s.conv.current_step ∨ s.conv.emergency_type ≠ none) →
    s.conv.pending_confirmation = true →
    (handle_text_message s ("yes".data) llm).conv =
      s.conv.confirm_step

/-- A concrete mid-protocol state: step 1 of a fire protocol, awaiting
confirmation with an armed escalation timer. -/
def c3State : AgentState :=
  { conv := { ConvState.init with
      current_step := 1, emergency_type := some ("fire".data),
      pending_confirmation := true, confirmation_timeout := 5 },
    voice := { VoiceState.init with
      emergency_detected := true, conversation_stage := "emergency".data },
    timerArmed := true, initiateCount := 0 }

/-- C3 counterexample: at `c3State`, handling `"yes"` does not run
`confirm_step` — `current_step` stays 1 and `steps_completed` stays empty
(the branch instead clears `pending_confirmation`, cancels the timer and
initiates the emergency call), refuting the claim. -/
theorem c3_counterexample :
    (handle_text_message c3State ("yes".data) ("ok".data)).conv.current_step = 1 ∧
    (handle_text_message c3State ("yes".data) ("ok".data)).conv.steps_completed = [] ∧
    ¬ c3ClaimProp := by
  refine ⟨by decide, by decide, fun h => ?_⟩
  have h2 := h c3State ("ok".data) (Or.inl (by decide)) (by decide)
  exact absurd h2 (by decide)

/-- C3 amended: handling a `"yes"` text while `pending_confirmation` holds
during an active emergency protocol does not call `confirm_step`; instead it
clears `pending_confirmation`, cancels the outstanding escalation timer
before it can fire, and invokes `_initiate_real_emergency_call`;
`current_step`, `steps_completed` and `confirmation_timeout` are unchanged. -/
theorem c3_amended (s : AgentState) (llm : List Char)
    (hg : 0 < s.conv.current_step ∨ s.conv.emergency_type ≠ none)
    (hp : s.conv.pending_confirmation = true) :
    (handle_text_message s ("yes".data) llm).conv.pending_confirmation = false ∧
    (handle_text_message s ("yes".data) llm).timerArmed = false ∧
    (handle_text_message s ("yes".data) llm).initiateCount = s.initiateCount + 1 ∧
    (handle_text_message s ("yes".data) llm).conv.current_step = s.conv.current_step ∧
    (handle_text_message s ("yes".data) llm).conv.steps_completed = s.conv.steps_completed ∧
    (handle_text_message s ("yes".data) llm).conv.confirmation_timeout = s.conv.confirmation_timeout := by
  have hd : (detect_emergency ("yes".data)).1 = false := by decide
  have hpos : is_positive_confirmation ("yes".data) = true := by decide
  have hne : ¬(("yes".data : List Char) = []) := by decide
  unfold handle_text_message
  rw [if_neg hne, hd]
  simp only [Bool.false_eq_true, if_false]
  by_cases hst : s.voice.conversation_stage = "standby".data <;>
    simp [hst, hg, hp, hpos]

/-- C3 amended witness: the amended behaviour at the concrete state
`c3State`. -/
theorem c3_amended_witness :
    ((0 < c3State.conv.current_step ∨ c3State.conv.emergency_type ≠ none) ∧
      c3State.conv.pending_confirmation = true) ∧
    ((handle_text_message c3State ("yes".data) ("ok".data)).conv.pending_confirmation = false ∧
      (handle_text_message c3State ("yes".data) ("ok".data)).timerArmed = false ∧
      (handle_text_message c3State ("yes".data) ("ok".data)).initiateCount = c3State.initiateCount + 1 ∧
      (handle_text_message c3State ("yes".data) ("ok".data)).conv.current_step = c3State.conv.current_step ∧
      (handle_text_message c3State ("yes".data) ("ok".data)).conv.steps_completed = c3State.conv.steps_completed ∧
      (handle_text_message c3State ("yes".data) ("ok".data)).conv.confirmation_timeout = c3State.conv.confirmation_timeout) :=
  ⟨⟨Or.inl (by decide), by decide⟩,
    c3_amended c3State ("ok".data) (Or.inl (by decide)) (by decide)⟩

/-- The formalization of claim C5 as stated (two-run noninterference, in the
one-sided form a single violating run refutes): handler operations performed
on behalf of client 0 alone never change the escalation level or current
step observable through client 1. -/
def c5ClaimProp : Prop :=
  ∀ evs : List MEv, (∀ e ∈ evs, e.client = 0) →
    readEscalationLevel (runM MultiState.init evs) 1 =
        readEscalationLevel MultiState.init 1 ∧
      readCurrentStep (runM MultiState.init evs) 1 =
        readCurrentStep MultiState.init 1

/-- C5 counterexample: client 0 reports a fire and lets its escalation timer
fire once; because the agent holds a single shared `conversation_state`, the
escalation level observable through client 1 changes from 0 to 1, refuting
session isolation. -/
theorem c5_counterexample :
    readEscalationLevel MultiState.init 1 = 0 ∧
    readEscalationLevel
      (runM MultiState.init
        [MEv.mmsg 0 ("fire".data) ("Are you safe?".data), MEv.mfire 0]) 1 = 1 ∧
    ¬ c5ClaimProp := by
  refine ⟨by decide, by decide, fun h => ?_⟩
  have h2 := (h [MEv.mmsg 0 ("fire".data) ("Are you safe?".data), MEv.mfire 0]
    (by decide)).1
  exact absurd h2 (by decide)

/-- Arming a timer for `c` does not change whether `b ≠ c` has one armed. -/
theorem mem_armClient (l : List Nat) (b c : Nat) (h : b ≠ c) :
    b ∈ armClient l c ↔ b ∈ l := by
  simp [armClient, List.mem_cons, h, List.mem_erase_of_ne h]

/-- Cancelling `c`'s timer does not change whether `b ≠ c` has one armed. -/
theorem mem_cancelClient (l : List Nat) (b c : Nat) (h : b ≠ c) :
    b ∈ cancelClient l c ↔ b ∈ l := List.mem_erase_of_ne h

/-- The per-client timer list after `_handle_agentic_emergency_response` is
either untouched or freshly armed for the acting client. -/
theorem armed_handleE (s : MultiState) (c : Nat) (l : List Char) :
    (handleEmergencyResponseM s c l).armedClients = s.armedClients ∨
    (handleEmergencyResponseM s c l).armedClients = armClient s.armedClients c := by
  unfold handleEmergencyResponseM
  split_ifs <;> simp

/-- The per-client timer list after `handle_text_message` for client `c` is
untouched, armed for `c`, or cancelled for `c`. -/
theorem armed_handle (s : MultiState) (c : Nat) (t l : List Char) :
    (handle_text_messageM s c t l).armedClients = s.armedClients ∨
    (handle_text_messageM s c t l).armedClients = armClient s.armedClients c ∨
    (handle_text_messageM s c t l).armedClients = cancelClient s.armedClients c := by
  unfold handle_text_messageM
  by_cases h0 : t = []
  · rw [if_pos h0]; exact Or.inl rfl
  rw [if_neg h0]
  by_cases h1 : (detect_emergency t).1 = true
  · rw [if_pos h1]
    exact (armed_handleE _ c l).imp (fun h => h) (fun h => Or.inl h)
  rw [if_neg h1]
  by_cases hst : s.voice.conversation_stage = "standby".data
  · simp only [hst, reduceIte]
    by_cases h2 : (0 : Nat) < s.conv.current_step ∨ s.conv.emergency_type ≠ none
    · rw [if_pos h2]
      by_cases h3 : (s.conv.pending_confirmation && is_positive_confirmation t) = true
      · rw [if_pos h3]; exact Or.inr (Or.inr rfl)
      · rw [if_neg h3]
        exact (armed_handleE _ c l).imp (fun h => h) (fun h => Or.inl h)
    · rw [if_neg h2]; exact Or.inl rfl
  · simp only [hst, reduceIte]
    by_cases h2 : (0 : Nat) < s.conv.current_step ∨ s.conv.emergency_type ≠ none
    · rw [if_pos h2]
      by_cases h3 : (s.conv.pending_confirmation && is_positive_confirmation t) = true
      · rw [if_pos h3]; exact Or.inr (Or.inr rfl)
      · rw [if_neg h3]
        exact (armed_handleE _ c l).imp (fun h => h) (fun h => Or.inl h)
    · rw [if_neg h2]; exact Or.inl rfl

/-- The per-client timer list after a fire of client `c`'s escalation timer
is untouched, cancelled for `c`, or cancelled-then-re-armed for `c`. -/
theorem armed_fire (s : MultiState) (c : Nat) :
    (escalation_timer_fireM s c).armedClients = s.armedClients ∨
    (escalation_timer_fireM s c).armedClients = cancelClient s.armedClients c ∨
    (escalation_timer_fireM s c).armedClients =
      armClient (cancelClient s.armedClients c) c := by
  unfold escalation_timer_fireM
  by_cases h1 : (!s.armedClients.contains c) = true
  · rw [if_pos h1]; exact Or.inl rfl
  · rw [if_neg h1]
    by_cases h2 : s.conv.pending_confirmation = true
    · rw [if_pos h2]
      by_cases h3 : (s.conv.escalate).escalation_level < 3
      · rw [if_pos h3]; exact Or.inr (Or.inr rfl)
      · rw [if_neg h3]; exact Or.inr (Or.inl rfl)
    · rw [if_neg h2]; exact Or.inr (Or.inl rfl)

/-- C5 amended: what IS isolated between sessions is the per-client timer
registry — an event on behalf of one client never changes whether another
client's escalation timer is armed — but the escalation state itself is a
single object shared by all sessions, so the escalation level read on behalf
of any client is identical to the one read on behalf of the acting client
(and is changed by the acting client's operations, as the counterexample
shows). -/
theorem c5_amended (s : MultiState) (e : MEv) (b : Nat) (h : e.client ≠ b) :
    ((b ∈ (stepM s e).armedClients) ↔ b ∈ s.armedClients) ∧
    readEscalationLevel (stepM s e) b = readEscalationLevel (stepM s e) e.client ∧
    readCurrentStep (stepM s e) b = readCurrentStep (stepM s e) e.client := by
  refine ⟨?_, rfl, rfl⟩
  have hb : b ≠ e.client := h.symm
  cases e with
  | mmsg c t l =>
    simp only [MEv.client] at hb
    have hstep : stepM s (MEv.mmsg c t l) = handle_text_messageM s c t l := rfl
    rcases armed_handle s c t l with ha | ha | ha
    · rw [hstep, ha]
    · rw [hstep, ha]; exact mem_armClient _ b c hb
    · rw [hstep, ha]; exact mem_cancelClient _ b c hb
  | mfire c =>
    simp only [MEv.client] at hb
    have hstep : stepM s (MEv.mfire c) = escalation_timer_fireM s c := rfl
    rcases armed_fire s c with ha | ha | ha
    · rw [hstep, ha]
    · rw [hstep, ha]; exact mem_cancelClient _ b c hb
    · rw [hstep, ha]
      exact (mem_armClient _ b c hb).trans (mem_cancelClient _ b c hb)

/-- C5 amended witness: with client 0 acting on a concrete two-client state,
client 1's timer stays armed exactly as before. -/
theorem c5_amended_witness :
    ((MEv.mfire 0).client ≠ 1) ∧
    (((1 ∈ (stepM { MultiState.init with armedClients := [0, 1] }
          (MEv.mfire 0)).armedClients) ↔
        1 ∈ ({ MultiState.init with armedClients := [0, 1] } : MultiState).armedClients) ∧
      readEscalationLevel (stepM { MultiState.init with armedClients := [0, 1] }
          (MEv.mfire 0)) 1 =
        readEscalationLevel (stepM { MultiState.init with armedClients := [0, 1] }
          (MEv.mfire 0)) (MEv.mfire 0).client ∧
      readCurrentStep (stepM { MultiState.init with armedClients := [0, 1] }
          (MEv.mfire 0)) 1 =
        readCurrentStep (stepM { MultiState.init with armedClients := [0, 1] }
          (MEv.mfire 0)) (MEv.mfire 0).client) :=
  ⟨by decide,
    c5_amended { MultiState.init with armedClients := [0, 1] } (MEv.mfire 0) 1
      (by decide)⟩

/-- Registry invariant: every armed timer task is the one its client's
`escalation_tasks` entry stores, task ids are below the fresh-id counter, and
the armed set has no duplicates. -/
def TInv (s : TimerSys) : Prop :=
  (∀ p ∈ s.live, s.stored.lookup p.1 = some p.2) ∧
  (∀ p ∈ s.live, p.2 < s.nextId) ∧
  s.live.Nodup

theorem cancel_stored_eq (s : TimerSys) (c : Nat) :
    (cancelStoredTimer s c).stored = s.stored := by
  unfold cancelStoredTimer
  cases s.stored.lookup c <;> rfl

theorem cancel_nextId_eq (s : TimerSys) (c : Nat) :
    (cancelStoredTimer s c).nextId = s.nextId := by
  unfold cancelStoredTimer
  cases s.stored.lookup c <;> rfl

theorem cancel_live_sub (s : TimerSys) (c : Nat) :
    ∀ p ∈ (cancelStoredTimer s c).live, p ∈ s.live := by
  unfold cancelStoredTimer
  cases s.stored.lookup c with
  | none => exact fun p hp => hp
  | some t => exact fun p hp => List.mem_of_mem_erase hp

theorem tinv_cancel (s : TimerSys) (c : Nat) (h : TInv s) :
    TInv (cancelStoredTimer s c) := by
  obtain ⟨h1, h2, h3⟩ := h
  refine ⟨?_, ?_, ?_⟩
  · intro p hp
    rw [cancel_stored_eq]
    exact h1 p (cancel_live_sub s c p hp)
  · intro p hp
    rw [cancel_nextId_eq]
    exact h2 p (cancel_live_sub s c p hp)
  · unfold cancelStoredTimer
    cases s.stored.lookup c with
    | none => exact h3
    | some t => exact h3.erase _

/-- After cancelling the stored timer of `c`, no armed timer of `c` remains:
the stored one was (by the invariant) the only one. -/
theorem cancel_no_live (s : TimerSys) (c : Nat) (h : TInv s) :
    ∀ t, (c, t) ∉ (cancelStoredTimer s c).live := by
  obtain ⟨h1, _, h3⟩ := h
  intro t ht
  unfold cancelStoredTimer at ht
  cases hl : s.stored.lookup c with
  | none =>
    rw [hl] at ht
    have := h1 (c, t) ht
    rw [hl] at this
    exact Option.noConfusion this
  | some t0 =>
    rw [hl] at ht
    have hmem := (h3.mem_erase_iff).mp ht
    have := h1 (c, t) hmem.2
    rw [hl] at this
    exact hmem.1 (by injection this with h4; rw [h4])

theorem tinv_arm (s : TimerSys) (c : Nat) (h : TInv s) :
    TInv (armTimerTask s c) := by
  have hc := tinv_cancel s c h
  have hno := cancel_no_live s c h
  obtain ⟨h1, h2, h3⟩ := hc
  unfold armTimerTask
  refine ⟨?_, ?_, ?_⟩
  · intro p hp
    rcases List.mem_cons.mp hp with hp | hp
    · subst hp
      simp [List.lookup_cons_self]
    · have hne : ¬(p.1 = c) := by
        intro heq
        have hpp : (p.1, p.2) ∈ (cancelStoredTimer s c).live := hp
        rw [heq] at hpp
        exact hno p.2 hpp
      rw [List.lookup_cons]
      have hbeq : (p.1 == c) = false := beq_eq_false_iff_ne.mpr hne
      rw [hbeq]
      exact h1 p hp
  · intro p hp
    rcases List.mem_cons.mp hp with hp | hp
    · subst hp
      exact Nat.lt_succ_self _
    · show p.2 < (cancelStoredTimer s c).nextId + 1
      have hlt := h2 p hp
      exact Nat.lt_succ_of_lt hlt
  · rw [List.nodup_cons]
    refine ⟨?_, h3⟩
    intro hmem
    exact absurd (h2 _ hmem) (by simp)

/-- Source `_escalation_timer` waking is the same registry operation as cancelling
the stored task (it is removed from the armed set either way). -/
theorem timerWake_eq_cancel (s : TimerSys) (c : Nat) :
    timerWake s c = cancelStoredTimer s c := rfl

theorem tinv_step (s : TimerSys) (e : TEv) (h : TInv s) : TInv (stepT s e) := by
  cases e with
  | arm c => exact tinv_arm s c h
  | fireRearm c =>
    show TInv (armTimerTask (timerWake s c) c)
    rw [timerWake_eq_cancel]
    exact tinv_arm _ c (tinv_cancel s c h)
  | fireEnd c =>
    show TInv (timerWake s c)
    rw [timerWake_eq_cancel]
    exact tinv_cancel s c h
  | cancel c => exact tinv_cancel s c h

theorem tinv_run (s : TimerSys) (evs : List TEv) (h : TInv s) :
    TInv (runT s evs) := by
  induction evs generalizing s with
  | nil => exact h
  | cons e t ih => exact ih (stepT s e) (tinv_step s e h)

theorem length_le_one_of_nodup_all_eq {α : Type} (l : List α) (hnd : l.Nodup)
    (hall : ∀ a ∈ l, ∀ b ∈ l, a = b) : l.length ≤ 1 := by
  cases l with
  | nil => simp
  | cons a t =>
    cases t with
    | nil => simp
    | cons b t2 =>
      exfalso
      have hab : a = b := hall a (by simp) b (by simp)
      have hnm : a ∉ b :: t2 := (List.nodup_cons.mp hnd).1
      exact hnm (hab ▸ List.mem_cons_self b t2)

theorem tinv_liveCount (s : TimerSys) (c : Nat) (h : TInv s) :
    liveCount s c ≤ 1 := by
  obtain ⟨h1, _, h3⟩ := h
  unfold liveCount
  refine length_le_one_of_nodup_all_eq _ (h3.filter _) ?_
  intro a ha b hb
  obtain ⟨ha1, ha2⟩ := List.mem_filter.mp ha
  obtain ⟨hb1, hb2⟩ := List.mem_filter.mp hb
  have hac : a.1 = c := by simpa using ha2
  have hbc : b.1 = c := by simpa using hb2
  have hla := h1 a ha1
  have hlb := h1 b hb1
  rw [hac] at hla
  rw [hbc] at hlb
  rw [hla] at hlb
  have h2 : a.2 = b.2 := by injection hlb
  exact Prod.ext (hac.trans hbc.symm) h2

theorem tinv_start : TInv TimerSys.start :=
  ⟨fun p hp => absurd hp (List.not_mem_nil p),
   fun p hp => absurd hp (List.not_mem_nil p),
   List.nodup_nil⟩

/-- C2: at every instant each session has at most one armed escalation-timer
task: every arming site in the source first cancels the stored task for that
`client_id` (this cancel-then-create shape is `armTimerTask`), so along every
sequence of registry events from agent start-up the armed set holds at most
one timer per client. -/
theorem c2_theorem (evs : List TEv) (c : Nat) :
    liveCount (runT TimerSys.start evs) c ≤ 1 :=
  tinv_liveCount _ c (tinv_run _ evs tinv_start)

end Crisis
